import Mathlib

/-!
Shallow embedding of the Mureka API client (`src/index.ts` of
`@superbuilders/mureka`): the request executor, its error taxonomy, the
client construction, the endpoint-layer request assembly for the
operations the claims mention, and the zod response schemas needed by
the claims (error envelope, upload-file response, song-task responses).

Platform builtins (fetch, `response.text()`, `JSON.parse`,
`response.json()`, `FormData`) are abstracted: a JSON value type stands
for the result of a successful parse, and a body outcome type records
whether reading or parsing the body failed.  Everything the repository
itself does — the branch structure of `request`, the envelope and
response validation, the status table, the header assembly, the
endpoint bodies and `generateInstrumental`'s local precondition — is
translated clause for clause from the source.
-/

namespace Mureka

/-- A JSON value as produced by a successful `JSON.parse`: null, booleans,
numbers (kept exact as rationals so that the zod `.int()` check is
expressible), strings, arrays, and objects as ordered field lists (JS
objects preserve insertion order). -/
inductive Json where
  | null
  | bool (b : Bool)
  | num (q : Rat)
  | str (s : String)
  | arr (elems : List Json)
  | obj (fields : List (String × Json))

/-- Property access `obj[key]` on a parsed JSON object.  `JSON.parse`
never yields duplicate keys (later duplicates overwrite earlier ones),
so first-match lookup agrees with JS semantics on its image. -/
def getField (fields : List (String × Json)) (key : String) : Option Json :=
  match fields with
  | [] => none
  | (k, v) :: rest => if k = key then some v else getField rest key

/-- Semantics of `z.string()`: accepts exactly JSON strings. -/
def zString : Json → Option String
  | .str s => some s
  | _ => none

/-- Semantics of `z.number().int()`: accepts exactly integral JSON
numbers and returns the number (carried as its integer value). -/
def zNumberInt : Json → Option Int
  | .num q => if q.den = 1 then some q.num else none
  | _ => none

/-- Semantics of a `z.string().optional()` field inside `z.object`: an
absent key validates to `none`; a present key must hold a string. -/
def zOptionalString (fields : List (String × Json)) (key : String) : Option (Option String) :=
  match getField fields key with
  | none => some none
  | some v => (zString v).map some

/-- Elementwise validation of a JSON array body, as `z.array(inner)`
does. -/
def zArrayMap {α : Type} (p : Json → Option α) : List Json → Option (List α)
  | [] => some []
  | x :: xs => do
    let y ← p x
    let ys ← zArrayMap p xs
    pure (y :: ys)

/-- Semantics of `z.array(inner)`: accepts exactly JSON arrays whose
every element validates against `inner`. -/
def zArray {α : Type} (p : Json → Option α) : Json → Option (List α)
  | .arr xs => zArrayMap p xs
  | _ => none

/-- The `TASK_STATUSES` enumeration (`z.enum` domain) of the source. -/
inductive TaskStatus where
  | preparing | queued | running | succeeded | failed | timeouted | cancelled
deriving DecidableEq

/-- The string each `TASK_STATUSES` member denotes. -/
def TaskStatus.toStr : TaskStatus → String
  | .preparing => "preparing"
  | .queued => "queued"
  | .running => "running"
  | .succeeded => "succeeded"
  | .failed => "failed"
  | .timeouted => "timeouted"
  | .cancelled => "cancelled"

/-- Membership test behind `z.enum(TASK_STATUSES)`. -/
def taskStatusOfString (s : String) : Option TaskStatus :=
  if s = "preparing" then some .preparing
  else if s = "queued" then some .queued
  else if s = "running" then some .running
  else if s = "succeeded" then some .succeeded
  else if s = "failed" then some .failed
  else if s = "timeouted" then some .timeouted
  else if s = "cancelled" then some .cancelled
  else none

/-- Semantics of `z.enum(TASK_STATUSES)`: a string in the enumeration. -/
def zTaskStatus : Json → Option TaskStatus
  | .str s => taskStatusOfString s
  | _ => none

/-- The `SECTION_TYPES` enumeration of the source. -/
inductive SectionType where
  | intro | verse | preChorus | chorus | bridge | breakdown | outro
deriving DecidableEq

/-- The string each `SECTION_TYPES` member denotes. -/
def SectionType.toStr : SectionType → String
  | .intro => "intro"
  | .verse => "verse"
  | .preChorus => "pre-chorus"
  | .chorus => "chorus"
  | .bridge => "bridge"
  | .breakdown => "breakdown"
  | .outro => "outro"

/-- Membership test behind `z.enum(SECTION_TYPES)`. -/
def sectionTypeOfString (s : String) : Option SectionType :=
  if s = "intro" then some .intro
  else if s = "verse" then some .verse
  else if s = "pre-chorus" then some .preChorus
  else if s = "chorus" then some .chorus
  else if s = "bridge" then some .bridge
  else if s = "breakdown" then some .breakdown
  else if s = "outro" then some .outro
  else none

/-- Semantics of `z.enum(SECTION_TYPES)`. -/
def zSectionType : Json → Option SectionType
  | .str s => sectionTypeOfString s
  | _ => none

/-- Safe-parse semantics of `MurekaApiErrorEnvelopeSchema` (source lines
487..491): the value must be an object whose `error` field is an object
whose `message` field is a string; unknown keys are stripped, so the
validated content is exactly the message. -/
def murekaApiErrorEnvelopeParse : Json → Option String
  | .obj fields =>
    match getField fields "error" with
    | some (.obj inner) =>
      match getField inner "message" with
      | some (.str m) => some m
      | _ => none
    | _ => none
  | _ => none

/-- The six classified provider error kinds exported by the source
(`ErrInvalidRequest` .. `ErrEngineOverloaded`, lines 7..34). -/
inductive ApiErrorKind where
  | invalidRequest
  | invalidAuthentication
  | forbidden
  | rateLimitOrQuotaExceeded
  | serverError
  | engineOverloaded
deriving DecidableEq

/-- The `STATUS_TO_ERROR` record of the source (lines 39..46): lookup of
an HTTP status in the fixed table. -/
def STATUS_TO_ERROR (status : Nat) : Option ApiErrorKind :=
  if status = 400 then some .invalidRequest
  else if status = 401 then some .invalidAuthentication
  else if status = 403 then some .forbidden
  else if status = 429 then some .rateLimitOrQuotaExceeded
  else if status = 500 then some .serverError
  else if status = 503 then some .engineOverloaded
  else none

/-- The closed error taxonomy at the executor boundary, one constructor
per distinct throw site of `request` plus `generateInstrumental`'s local
precondition throw.  `apiError` carries the status and the table kind;
`unknownStatusError` carries the status and the message the code embeds
(when the emptiness test passes). -/
inductive ExecError where
  | bodyReadError
  | bodyParseError
  | envelopeParseError
  | apiError (status : Nat) (kind : ApiErrorKind)
  | unknownStatusError (status : Nat) (message : Option String)
  | responseShapeError
  | preconditionError
deriving DecidableEq

/-- Lower-casing of one character, as `String.prototype.toLowerCase`
acts on the ASCII range (the envelope messages the provider documents
are ASCII). -/
def asciiLowerChar (c : Char) : Char :=
  if 65 ≤ c.toNat ∧ c.toNat ≤ 90 then Char.ofNat (c.toNat + 32) else c

/-- The `toLowerCase()` call of source line 674. -/
def jsToLowerCase (s : String) : String := String.mk (s.data.map asciiLowerChar)

/-- The whitespace characters `String.prototype.trim` strips (restricted
to the common ones). -/
def isJsWhitespace (c : Char) : Bool := c == ' ' || c == '\t' || c == '\n' || c == '\r'

/-- The `trim()` call of source line 675: strip whitespace from both
ends. -/
def jsTrim (s : String) : String :=
  String.mk (((s.data.dropWhile isJsWhitespace).reverse.dropWhile isJsWhitespace).reverse)

/-- Outcome of obtaining the response body, abstracting the platform's
`response.text()` / `JSON.parse` / `response.json()` pipeline: reading
the body can fail, the text can fail to parse as JSON, or it parses to
a value. -/
inductive BodyOutcome where
  | readError
  | parseError (text : String)
  | json (v : Json)

/-- An HTTP response delivered by a completed fetch. -/
structure HttpResponse where
  status : Nat
  body : BodyOutcome

/-- The `response.ok` flag of the fetch API: status in the 2xx range. -/
def responseOk (status : Nat) : Bool := 200 ≤ status && status ≤ 299

/-- The outcome-classification pipeline of `request` (source lines
652..692), after a completed fetch.  `responseSchema` is the safe-parse
semantics of the endpoint's zod response schema.  Clause for clause:
non-2xx takes the failure branch (text read, JSON parse, envelope
validation, status-table lookup, message fallback with the lower-cased
message and a trim-based emptiness test); 2xx takes the success branch
(`response.json()`, whose failure the code wraps as a body-parse
failure, then schema validation). -/
def request {α : Type} (resp : HttpResponse) (responseSchema : Json → Option α) :
    Except ExecError α :=
  if responseOk resp.status = false then
    match resp.body with
    | .readError => .error .bodyReadError
    | .parseError _ => .error .bodyParseError
    | .json v =>
      match murekaApiErrorEnvelopeParse v with
      | none => .error .envelopeParseError
      | some envMessage =>
        match STATUS_TO_ERROR resp.status with
        | some kind => .error (.apiError resp.status kind)
        | none =>
          let message := jsToLowerCase envMessage
          if 0 < (jsTrim message).length then
            .error (.unknownStatusError resp.status (some message))
          else
            .error (.unknownStatusError resp.status none)
  else
    match resp.body with
    | .readError => .error .bodyParseError
    | .parseError _ => .error .bodyParseError
    | .json v =>
      match responseSchema v with
      | none => .error .responseShapeError
      | some value => .ok value

/-- The `MUREKA_API_BASE_URL` constant of the source (line 51). -/
def MUREKA_API_BASE_URL : String := "https://api.mureka.ai"

/-- The `ClientConfig` argument of `createClient`.  `none` stands for an
absent (`undefined`) property. -/
structure ClientConfig where
  apiKey : Option String
  apiBaseUrl : Option String

/-- The immutable state the `request` closure captures: the credential
and the resolved base url. -/
structure Client where
  apiKey : String
  apiBaseUrl : String
deriving DecidableEq

/-- The `createClient` construction (source lines 626..631): throws when
the api key is `undefined`, otherwise resolves the base url with the
`??` default and returns the client over that fixed configuration. -/
def createClient (config : ClientConfig) : Except String Client :=
  match config.apiKey with
  | none => .error "mureka api key required"
  | some key => .ok { apiKey := key, apiBaseUrl := config.apiBaseUrl.getD MUREKA_API_BASE_URL }

/-- The headers `request` attaches to every outgoing fetch (source lines
641..645).  No endpoint passes headers of its own, so the object spread
leaves exactly the two entries written in the source, for every request
the client issues — including multipart ones. -/
def requestHeaders (apiKey : String) : List (String × String) :=
  [("Authorization", "Bearer " ++ apiKey), ("Content-Type", "application/json")]

/-- A `File` object handed to `FormData.append`; its payload is opaque
to the client code. -/
structure JsFile where
  name : String
deriving DecidableEq

/-- A value appended to a `FormData`: a string field or a file field. -/
inductive FormValue where
  | str (s : String)
  | file (f : JsFile)
deriving DecidableEq

/-- The request payload handed to fetch: absent (GET endpoints), a
JSON-serialized value (`JSON.stringify(input)` — represented by the
value it serializes), or a `FormData` with its appended fields in
order. -/
inductive RequestBody where
  | empty
  | json (v : Json)
  | multipart (fields : List (String × FormValue))

/-- HTTP methods the client uses. -/
inductive Method where
  | get
  | post
deriving DecidableEq

/-- The single outgoing request a call to `request` issues (source lines
638..647): resolved url, method, the always-attached headers, and the
body the endpoint supplied. -/
structure SentRequest where
  url : String
  method : Method
  headers : List (String × String)
  body : RequestBody

/-- Assembly of the outgoing request from the client state and the
endpoint-supplied pieces. -/
def sendRequest (client : Client) (endpoint : String) (method : Method)
    (body : RequestBody) : SentRequest :=
  { url := client.apiBaseUrl ++ endpoint
    method := method
    headers := requestHeaders client.apiKey
    body := body }

/-- The `UploadFileInput` of the source: a file and a purpose string. -/
structure UploadFileInput where
  file : JsFile
  purpose : String

/-- The request `uploadFile` issues (source lines 695..708): a POST of a
`FormData` to `/v1/files/upload`, appending `file` then `purpose`. -/
def uploadFileRequest (client : Client) (input : UploadFileInput) : SentRequest :=
  sendRequest client "/v1/files/upload" .post
    (.multipart [("file", .file input.file), ("purpose", .str input.purpose)])

/-- The request `addUploadPart` issues (source lines 799..812): a POST
of a `FormData` to `/v1/uploads/add`, appending `upload_id` then
`file`. -/
def addUploadPartRequest (client : Client) (upload_id : String) (file : JsFile) : SentRequest :=
  sendRequest client "/v1/uploads/add" .post
    (.multipart [("upload_id", .str upload_id), ("file", .file file)])

/-- The `GenerateInstrumentalInput` of the source: the model plus the
two mutually exclusive optional control fields. -/
structure GenerateInstrumentalInput where
  model : String
  prompt : Option String
  instrumental_id : Option String

/-- The value `JSON.stringify(input)` serializes for a
`GenerateInstrumentalInput` (undefined properties are skipped by
`JSON.stringify`). -/
def GenerateInstrumentalInput.toJson (input : GenerateInstrumentalInput) : Json :=
  Json.obj ([("model", Json.str input.model)]
    ++ (match input.prompt with
        | some p => [("prompt", Json.str p)]
        | none => [])
    ++ (match input.instrumental_id with
        | some i => [("instrumental_id", Json.str i)]
        | none => []))

/-- The local phase of `generateInstrumental` (source lines 764..776):
the code throws before any network activity exactly when `prompt` and
`instrumental_id` are BOTH absent; in every other case it hands the
serialized input to `request` for `/v1/instrumental/generate`. -/
def generateInstrumental (client : Client) (input : GenerateInstrumentalInput) :
    Except ExecError SentRequest :=
  if input.prompt = none ∧ input.instrumental_id = none then
    .error .preconditionError
  else
    .ok (sendRequest client "/v1/instrumental/generate" .post (.json input.toJson))

/-- The validated value of `UploadFileResponseSchema` (source lines
99..105). -/
structure UploadFileResponse where
  id : String
  bytes : Int
  created_at : Int
  filename : String
  purpose : String
deriving DecidableEq

/-- Safe-parse semantics of `UploadFileResponseSchema`: the value must
be an object, each declared field must validate, and (zod default) any
unknown key is stripped from the validated value. -/
def uploadFileResponseParse : Json → Option UploadFileResponse
  | .obj fields => do
    let id ← (getField fields "id").bind zString
    let bytes ← (getField fields "bytes").bind zNumberInt
    let created_at ← (getField fields "created_at").bind zNumberInt
    let filename ← (getField fields "filename").bind zString
    let purpose ← (getField fields "purpose").bind zString
    pure ⟨id, bytes, created_at, filename, purpose⟩
  | _ => none

/-- The declared fields of an `UploadFileResponse` as JSON object
members, in declaration order. -/
def uploadFileResponseFields (r : UploadFileResponse) : List (String × Json) :=
  [("id", .str r.id), ("bytes", .num (r.bytes : Rat)),
    ("created_at", .num (r.created_at : Rat)), ("filename", .str r.filename),
    ("purpose", .str r.purpose)]

/-- The JSON object holding exactly the declared fields of an
`UploadFileResponse`, in declaration order. -/
def UploadFileResponse.toJson (r : UploadFileResponse) : Json :=
  Json.obj (uploadFileResponseFields r)

/-- The validated value of `SongLyricsLineSchema` (source lines
162..166). -/
structure SongLyricsLine where
  start : Int
  «end» : Int
  text : String
deriving DecidableEq

/-- Safe-parse semantics of `SongLyricsLineSchema`. -/
def songLyricsLineParse : Json → Option SongLyricsLine
  | .obj fields => do
    let start ← (getField fields "start").bind zNumberInt
    let e ← (getField fields "end").bind zNumberInt
    let text ← (getField fields "text").bind zString
    pure ⟨start, e, text⟩
  | _ => none

/-- The JSON object holding exactly the declared fields of a
`SongLyricsLine`. -/
def SongLyricsLine.toJson (l : SongLyricsLine) : Json :=
  Json.obj [("start", .num (l.start : Rat)), ("end", .num (l.«end» : Rat)),
    ("text", .str l.text)]

/-- The validated value of `SongLyricsSectionSchema` (source lines
171..176). -/
structure SongLyricsSection where
  section_type : SectionType
  start : Int
  «end» : Int
  lines : List SongLyricsLine
deriving DecidableEq

/-- Safe-parse semantics of `SongLyricsSectionSchema`. -/
def songLyricsSectionParse : Json → Option SongLyricsSection
  | .obj fields => do
    let section_type ← (getField fields "section_type").bind zSectionType
    let start ← (getField fields "start").bind zNumberInt
    let e ← (getField fields "end").bind zNumberInt
    let lines ← (getField fields "lines").bind (zArray songLyricsLineParse)
    pure ⟨section_type, start, e, lines⟩
  | _ => none

/-- The JSON object holding exactly the declared fields of a
`SongLyricsSection`. -/
def SongLyricsSection.toJson (s : SongLyricsSection) : Json :=
  Json.obj [("section_type", .str s.section_type.toStr),
    ("start", .num (s.start : Rat)), ("end", .num (s.«end» : Rat)),
    ("lines", .arr (s.lines.map SongLyricsLine.toJson))]

/-- The validated value of `SongChoiceSchema` (source lines 181..187). -/
structure SongChoice where
  index : Int
  url : String
  flac_url : String
  duration : Int
  lyrics_sections : List SongLyricsSection
deriving DecidableEq

/-- Safe-parse semantics of `SongChoiceSchema`. -/
def songChoiceParse : Json → Option SongChoice
  | .obj fields => do
    let index ← (getField fields "index").bind zNumberInt
    let url ← (getField fields "url").bind zString
    let flac_url ← (getField fields "flac_url").bind zString
    let duration ← (getField fields "duration").bind zNumberInt
    let lyrics_sections ← (getField fields "lyrics_sections").bind (zArray songLyricsSectionParse)
    pure ⟨index, url, flac_url, duration, lyrics_sections⟩
  | _ => none

/-- The JSON object holding exactly the declared fields of a
`SongChoice`. -/
def SongChoice.toJson (c : SongChoice) : Json :=
  Json.obj [("index", .num (c.index : Rat)), ("url", .str c.url),
    ("flac_url", .str c.flac_url), ("duration", .num (c.duration : Rat)),
    ("lyrics_sections", .arr (c.lyrics_sections.map SongLyricsSection.toJson))]

/-- The validated value of `QuerySongTaskResponseSchema` (source lines
214..222). -/
structure QuerySongTaskResponse where
  id : String
  created_at : Int
  finished_at : Int
  model : String
  status : TaskStatus
  failed_reason : Option String
  choices : List SongChoice
deriving DecidableEq

/-- Safe-parse semantics of `QuerySongTaskResponseSchema`: every field
required except the optional `failed_reason`. -/
def querySongTaskResponseParse : Json → Option QuerySongTaskResponse
  | .obj fields => do
    let id ← (getField fields "id").bind zString
    let created_at ← (getField fields "created_at").bind zNumberInt
    let finished_at ← (getField fields "finished_at").bind zNumberInt
    let model ← (getField fields "model").bind zString
    let status ← (getField fields "status").bind zTaskStatus
    let failed_reason ← zOptionalString fields "failed_reason"
    let choices ← (getField fields "choices").bind (zArray songChoiceParse)
    pure ⟨id, created_at, finished_at, model, status, failed_reason, choices⟩
  | _ => none

/-- The JSON object holding exactly the declared fields of a
`QuerySongTaskResponse`, in declaration order; an absent
`failed_reason` key renders nothing. -/
def QuerySongTaskResponse.toJson (r : QuerySongTaskResponse) : Json :=
  Json.obj ([("id", Json.str r.id), ("created_at", Json.num (r.created_at : Rat)),
    ("finished_at", Json.num (r.finished_at : Rat)), ("model", Json.str r.model),
    ("status", Json.str r.status.toStr)]
    ++ (match r.failed_reason with
        | some s => [("failed_reason", Json.str s)]
        | none => [])
    ++ [("choices", Json.arr (r.choices.map SongChoice.toJson))])

/-- `GenerateSongResponseSchema` (source lines 192..200) declares field
for field the same shape as `QuerySongTaskResponseSchema`, so its
validated value is the same structure. -/
abbrev GenerateSongResponse := QuerySongTaskResponse

/-- Safe-parse semantics of `GenerateSongResponseSchema`, textually the
same validator as the query-song-task one. -/
def generateSongResponseParse : Json → Option GenerateSongResponse :=
  querySongTaskResponseParse

/-! ## Helper lemmas -/

/-- A status the `STATUS_TO_ERROR` table classifies (400, 401, 403, 429,
500, 503) is never a 2xx status, so such a response always takes the
failure branch. -/
theorem STATUS_TO_ERROR_responseOk {s : Nat} {k : ApiErrorKind}
    (h : STATUS_TO_ERROR s = some k) : responseOk s = false := by
  unfold STATUS_TO_ERROR at h
  split_ifs at h <;> (subst_vars; rfl)

/-- Elementwise array validation inverts elementwise rendering. -/
theorem zArrayMap_roundtrip {α : Type} (enc : α → Json) (p : Json → Option α)
    (h : ∀ a, p (enc a) = some a) : ∀ xs : List α, zArrayMap p (xs.map enc) = some xs
  | [] => rfl
  | x :: xs => by
    simp [List.map, zArrayMap, h x, zArrayMap_roundtrip enc p h xs]

/-- Round trip for a lyrics line: validating its rendering returns it. -/
theorem songLyricsLineParse_roundtrip (l : SongLyricsLine) :
    songLyricsLineParse l.toJson = some l := rfl

/-- Round trip for a lyrics section. -/
theorem songLyricsSectionParse_roundtrip (s : SongLyricsSection) :
    songLyricsSectionParse s.toJson = some s := by
  cases s with
  | mk section_type start e lines =>
    simp [songLyricsSectionParse, SongLyricsSection.toJson, getField, zSectionType,
      zNumberInt, zString, zArray, Option.bind,
      zArrayMap_roundtrip SongLyricsLine.toJson songLyricsLineParse songLyricsLineParse_roundtrip lines]
    cases section_type <;> rfl

/-- Round trip for a song choice. -/
theorem songChoiceParse_roundtrip (c : SongChoice) :
    songChoiceParse c.toJson = some c := by
  cases c with
  | mk index url flac_url duration lyrics_sections =>
    simp [songChoiceParse, SongChoice.toJson, getField, zNumberInt, zString, zArray,
      Option.bind,
      zArrayMap_roundtrip SongLyricsSection.toJson songLyricsSectionParse
        songLyricsSectionParse_roundtrip lyrics_sections]

/-- Round trip for the whole query-song-task response value. -/
theorem querySongTaskResponseParse_roundtrip (r : QuerySongTaskResponse) :
    querySongTaskResponseParse r.toJson = some r := by
  cases r with
  | mk id created_at finished_at model status failed_reason choices =>
    cases failed_reason <;>
      simp [querySongTaskResponseParse, QuerySongTaskResponse.toJson, getField,
        zNumberInt, zString, zArray, zTaskStatus, zOptionalString, Option.bind,
        zArrayMap_roundtrip SongChoice.toJson songChoiceParse songChoiceParse_roundtrip choices] <;>
      cases status <;> rfl

/-! ## Claim theorems -/

/-- C1: for every non-2xx response whose status the `STATUS_TO_ERROR`
table classifies and whose body is a well-formed error envelope, the
executor fails with exactly the classified `ApiError` of that status,
whatever the envelope message text is (the message `m` does not occur
in the conclusion). -/
theorem request_known_status_yields_apiError {α : Type} (status : Nat)
    (kind : ApiErrorKind) (v : Json) (m : String) (schema : Json → Option α)
    (htable : STATUS_TO_ERROR status = some kind)
    (henv : murekaApiErrorEnvelopeParse v = some m) :
    request ⟨status, .json v⟩ schema = .error (.apiError status kind) := by
  have hok : responseOk status = false := STATUS_TO_ERROR_responseOk htable
  simp [request, hok, henv, htable]

/-- Witness for C1: a 400 response with an arbitrary envelope message is
classified as the invalid-request error, and a 503 one as the
engine-overloaded error. -/
theorem request_known_status_yields_apiError_witness :
    request ⟨400, .json (Json.obj [("error", Json.obj [("message", Json.str "Anything At All")])])⟩
        uploadFileResponseParse = .error (.apiError 400 .invalidRequest) ∧
    request ⟨503, .json (Json.obj [("error", Json.obj [("message", Json.str "busy")])])⟩
        uploadFileResponseParse = .error (.apiError 503 .engineOverloaded) :=
  ⟨request_known_status_yields_apiError 400 .invalidRequest
      (Json.obj [("error", Json.obj [("message", Json.str "Anything At All")])])
      "Anything At All" uploadFileResponseParse rfl rfl,
   request_known_status_yields_apiError 503 .engineOverloaded
      (Json.obj [("error", Json.obj [("message", Json.str "busy")])])
      "busy" uploadFileResponseParse rfl rfl⟩

/-- C4: on the failure branch the executor checks the body in the fixed
order read / JSON-parse / envelope-shape: an unreadable body fails with
the body-read error, an unparsable one with the body-parse error, and a
parsed value that is not envelope-shaped fails with the envelope-parse
error — even when the status (such as 400) is in the known table, so
the classified error is never reached over a malformed envelope. -/
theorem request_failure_branch_order {α : Type} (status : Nat) (t : String) (v : Json)
    (schema : Json → Option α) (hfail : responseOk status = false) :
    request ⟨status, .readError⟩ schema = .error .bodyReadError ∧
    request ⟨status, .parseError t⟩ schema = .error .bodyParseError ∧
    (murekaApiErrorEnvelopeParse v = none →
      request ⟨status, .json v⟩ schema = .error .envelopeParseError) := by
  refine ⟨?_, ?_, fun henv => ?_⟩ <;> simp [request, hfail, *]

/-- Witness for C4: a 400 response whose body is valid JSON but not an
envelope fails with the envelope-parse error rather than the classified
400 error. -/
theorem request_failure_branch_order_witness :
    responseOk 400 = false ∧
    murekaApiErrorEnvelopeParse (Json.obj [("code", Json.num 7)]) = none ∧
    request ⟨400, .json (Json.obj [("code", Json.num 7)])⟩ uploadFileResponseParse
      = .error .envelopeParseError ∧
    request ⟨400, BodyOutcome.readError⟩ uploadFileResponseParse = .error .bodyReadError :=
  ⟨rfl, rfl,
   (request_failure_branch_order 400 "x" (Json.obj [("code", Json.num 7)])
      uploadFileResponseParse rfl).2.2 rfl,
   (request_failure_branch_order 400 "x" (Json.obj [("code", Json.num 7)])
      uploadFileResponseParse rfl).1⟩

/-- C5 counterexample: for an unknown failure status with envelope
message " Not Found ", the code carries the lower-cased but UNTRIMMED
message " not found " — not the trimmed text " not found ".trim — so
the claim that the trimmed, lower-cased message is carried is false. -/
theorem request_unknown_status_message_not_trimmed :
    request ⟨404, .json (Json.obj [("error", Json.obj [("message", Json.str " Not Found ")])])⟩
        uploadFileResponseParse
      = .error (.unknownStatusError 404 (some " not found ")) ∧
    jsTrim (jsToLowerCase " Not Found ") = "not found" ∧
    (" not found " : String) ≠ "not found" := by
  refine ⟨rfl, by decide, by decide⟩

/-- C5 amended: for a non-2xx status outside the known table with a
well-formed envelope, the executor fails with the unknown-status error
carrying the LOWER-CASED message text when that text is non-empty after
trimming (trimming is used only for the emptiness test, not applied to
the carried text); with a message that is empty or whitespace after
lower-casing, the bare variant carrying only the status. -/
theorem request_unknown_status_lowercased_message {α : Type} (status : Nat) (v : Json)
    (m : String) (schema : Json → Option α)
    (hfail : responseOk status = false)
    (hunknown : STATUS_TO_ERROR status = none)
    (henv : murekaApiErrorEnvelopeParse v = some m) :
    (0 < (jsTrim (jsToLowerCase m)).length →
      request ⟨status, .json v⟩ schema
        = .error (.unknownStatusError status (some (jsToLowerCase m)))) ∧
    ((jsTrim (jsToLowerCase m)).length = 0 →
      request ⟨status, .json v⟩ schema = .error (.unknownStatusError status none)) := by
  constructor <;> intro h <;> simp [request, hfail, hunknown, henv, h]

/-- Witness for C5 amended: a 404 with message " Not Found " carries
" not found "; a 404 with a whitespace-only message is bare. -/
theorem request_unknown_status_lowercased_message_witness :
    request ⟨404, .json (Json.obj [("error", Json.obj [("message", Json.str "Not Found")])])⟩
        uploadFileResponseParse = .error (.unknownStatusError 404 (some "not found")) ∧
    request ⟨404, .json (Json.obj [("error", Json.obj [("message", Json.str "   ")])])⟩
        uploadFileResponseParse = .error (.unknownStatusError 404 none) :=
  ⟨(request_unknown_status_lowercased_message 404
      (Json.obj [("error", Json.obj [("message", Json.str "Not Found")])])
      "Not Found" uploadFileResponseParse rfl rfl rfl).1 (by decide),
   (request_unknown_status_lowercased_message 404
      (Json.obj [("error", Json.obj [("message", Json.str "   ")])])
      "   " uploadFileResponseParse rfl rfl rfl).2 (by decide)⟩

/-- C6: for a 2xx response, a JSON body the endpoint's response schema
rejects makes the executor fail with the response-shape error (an
`Except.error`, so no value — partial or otherwise — is returned), and
a body that is not valid JSON at all fails with the body-parse error. -/
theorem request_success_shape_mismatch {α : Type} (status : Nat) (t : String) (v : Json)
    (schema : Json → Option α) (hok : responseOk status = true) :
    (schema v = none → request ⟨status, .json v⟩ schema = .error .responseShapeError) ∧
    request ⟨status, .parseError t⟩ schema = .error .bodyParseError := by
  constructor
  · intro h
    simp [request, hok, h]
  · simp [request, hok]

/-- Witness for C6: a 200 song-generation body missing the required `id`
field is rejected with the response-shape error. -/
theorem request_success_shape_mismatch_witness :
    generateSongResponseParse (Json.obj [("created_at", Json.num 1),
        ("finished_at", Json.num 2), ("model", Json.str "auto"),
        ("status", Json.str "succeeded"), ("choices", Json.arr [])]) = none ∧
    request ⟨200, .json (Json.obj [("created_at", Json.num 1),
        ("finished_at", Json.num 2), ("model", Json.str "auto"),
        ("status", Json.str "succeeded"), ("choices", Json.arr [])])⟩
      generateSongResponseParse = .error .responseShapeError :=
  ⟨rfl,
   (request_success_shape_mismatch 200 "x" (Json.obj [("created_at", Json.num 1),
      ("finished_at", Json.num 2), ("model", Json.str "auto"),
      ("status", Json.str "succeeded"), ("choices", Json.arr [])])
      generateSongResponseParse rfl).1 rfl⟩

/-- C2 (code bug exhibited): the multipart request bodies contain
exactly the appended fields, but the executor attaches
`Content-Type: application/json` to EVERY outgoing request — the
multipart uploads included — because the header object of source lines
641..645 is unconditional; the claim that no explicit Content-Type is
set on multipart requests is contradicted by the code. -/
theorem multipart_requests_carry_json_content_type (client : Client)
    (input : UploadFileInput) (upload_id : String) (file : JsFile) :
    (uploadFileRequest client input).body =
      RequestBody.multipart [("file", .file input.file), ("purpose", .str input.purpose)] ∧
    ("Content-Type", "application/json") ∈ (uploadFileRequest client input).headers ∧
    (addUploadPartRequest client upload_id file).body =
      RequestBody.multipart [("upload_id", .str upload_id), ("file", .file file)] ∧
    ("Content-Type", "application/json") ∈ (addUploadPartRequest client upload_id file).headers := by
  refine ⟨rfl, ?_, rfl, ?_⟩ <;>
    simp [uploadFileRequest, addUploadPartRequest, sendRequest, requestHeaders]

/-- C3 (code bug exhibited): `generateInstrumental` rejects locally only
the neither-set input; with exactly one control field set it sends the
request, and — against the documented exactly-one precondition — with
BOTH `prompt` and `instrumental_id` set it also sends the request
instead of failing locally. -/
theorem generateInstrumental_precondition_only_rejects_neither (client : Client)
    (model p i : String) :
    generateInstrumental client ⟨model, none, none⟩ = .error .preconditionError ∧
    generateInstrumental client ⟨model, some p, none⟩ =
      .ok (sendRequest client "/v1/instrumental/generate" .post
        (.json (GenerateInstrumentalInput.toJson ⟨model, some p, none⟩))) ∧
    generateInstrumental client ⟨model, none, some i⟩ =
      .ok (sendRequest client "/v1/instrumental/generate" .post
        (.json (GenerateInstrumentalInput.toJson ⟨model, none, some i⟩))) ∧
    generateInstrumental client ⟨model, some p, some i⟩ =
      .ok (sendRequest client "/v1/instrumental/generate" .post
        (.json (GenerateInstrumentalInput.toJson ⟨model, some p, some i⟩))) := by
  refine ⟨?_, ?_, ?_, ?_⟩ <;> simp [generateInstrumental]

/-- C7: a 200 response whose body renders a query-song-task value with
status `succeeded` and exactly one choice — the declared fields and
nothing else — validates successfully, and the value the executor
returns re-renders to that body field for field. -/
theorem querySongTask_roundtrip (r : QuerySongTaskResponse)
    (hstatus : r.status = TaskStatus.succeeded) (hone : r.choices.length = 1) :
    request ⟨200, .json r.toJson⟩ querySongTaskResponseParse = .ok r := by
  simp [request, responseOk, querySongTaskResponseParse_roundtrip r]

/-- Witness for C7: a concrete succeeded task with one fully populated
choice round-trips. -/
theorem querySongTask_roundtrip_witness :
    request ⟨200, .json (QuerySongTaskResponse.toJson
        ⟨"task-1", 100, 200, "mureka-6", .succeeded, none,
          [⟨0, "https://u.example/s.mp3", "https://u.example/s.flac", 30000,
            [⟨.verse, 0, 1000, [⟨0, 500, "la"⟩]⟩]⟩]⟩)⟩
      querySongTaskResponseParse
      = .ok ⟨"task-1", 100, 200, "mureka-6", .succeeded, none,
          [⟨0, "https://u.example/s.mp3", "https://u.example/s.flac", 30000,
            [⟨.verse, 0, 1000, [⟨0, 500, "la"⟩]⟩]⟩]⟩ :=
  querySongTask_roundtrip
    ⟨"task-1", 100, 200, "mureka-6", .succeeded, none,
      [⟨0, "https://u.example/s.mp3", "https://u.example/s.flac", 30000,
        [⟨.verse, 0, 1000, [⟨0, 500, "la"⟩]⟩]⟩]⟩ rfl rfl

/-- C8: construction fails exactly on an absent credential; with a
credential present it succeeds, and the client holds that credential
and the supplied base url, defaulting to the provider origin
`https://api.mureka.ai` when none is supplied. -/
theorem createClient_credential_and_base_url (config : ClientConfig) :
    (config.apiKey = none → createClient config = .error "mureka api key required") ∧
    (∀ key, config.apiKey = some key →
      createClient config =
        .ok { apiKey := key, apiBaseUrl := config.apiBaseUrl.getD MUREKA_API_BASE_URL }) ∧
    (∀ key, config.apiKey = some key → config.apiBaseUrl = none →
      createClient config = .ok { apiKey := key, apiBaseUrl := "https://api.mureka.ai" }) := by
  refine ⟨fun h => ?_, fun key h => ?_, fun key h h2 => ?_⟩ <;>
    simp [createClient, MUREKA_API_BASE_URL, h, *]

/-- Witness for C8: absent key fails; supplied base url is kept; absent
base url defaults to the provider origin. -/
theorem createClient_credential_and_base_url_witness :
    createClient ⟨none, none⟩ = .error "mureka api key required" ∧
    createClient ⟨some "k", some "https://proxy.example"⟩ =
      .ok ⟨"k", "https://proxy.example"⟩ ∧
    createClient ⟨some "k", none⟩ = .ok ⟨"k", "https://api.mureka.ai"⟩ :=
  ⟨(createClient_credential_and_base_url ⟨none, none⟩).1 rfl,
   (createClient_credential_and_base_url ⟨some "k", some "https://proxy.example"⟩).2.1 "k" rfl,
   (createClient_credential_and_base_url ⟨some "k", none⟩).2.2 "k" rfl rfl⟩

/-- C9: the construction guard tests only for an absent key, so the
empty string is accepted, and every request such a client issues
carries the header `Authorization: Bearer ` with an empty token. -/
theorem createClient_empty_api_key_accepted :
    createClient ⟨some "", none⟩ = .ok ⟨"", MUREKA_API_BASE_URL⟩ ∧
    ∀ (endpoint : String) (method : Method) (body : RequestBody),
      (sendRequest ⟨"", MUREKA_API_BASE_URL⟩ endpoint method body).headers =
        [("Authorization", "Bearer "), ("Content-Type", "application/json")] :=
  ⟨rfl, fun _ _ _ => by simp [sendRequest, requestHeaders]⟩

/-- C10: a 2xx body holding the declared upload-file fields plus an
extra, undeclared field still validates, the validated value holds
exactly the declared fields, and its rendering is no longer the
response body — the extra field has been silently dropped. -/
theorem uploadFile_response_extra_field_dropped (r : UploadFileResponse)
    (k : String) (v : Json)
    (hk : k ∉ ["id", "bytes", "created_at", "filename", "purpose"]) :
    request ⟨200, .json (Json.obj (uploadFileResponseFields r ++ [(k, v)]))⟩
        uploadFileResponseParse = .ok r ∧
    Json.obj (uploadFileResponseFields r ++ [(k, v)]) ≠ UploadFileResponse.toJson r := by
  constructor
  · rfl
  · intro h
    simp [UploadFileResponse.toJson] at h

/-- Witness for C10: a concrete upload-file body with an `extra` field
validates to the five declared fields and differs from its rendering. -/
theorem uploadFile_response_extra_field_dropped_witness :
    request ⟨200, .json (Json.obj (uploadFileResponseFields
        ⟨"file-1", 10, 20, "a.mp3", "reference"⟩ ++ [("extra", Json.null)]))⟩
      uploadFileResponseParse = .ok ⟨"file-1", 10, 20, "a.mp3", "reference"⟩ ∧
    Json.obj (uploadFileResponseFields ⟨"file-1", 10, 20, "a.mp3", "reference"⟩
        ++ [("extra", Json.null)])
      ≠ UploadFileResponse.toJson ⟨"file-1", 10, 20, "a.mp3", "reference"⟩ :=
  uploadFile_response_extra_field_dropped ⟨"file-1", 10, 20, "a.mp3", "reference"⟩
    "extra" Json.null (by decide)

end Mureka
